import Mathlib

/-!
Verification development for the AlfaHackathon risk-scoring and
recommendation core.

The development shallowly embeds the Python functions
`calculate_risk_score` (app/services/risk_service.py),
`determine_segment` and the recommendation construction inside
`get_recommendations` (app/api/v1/recommendations.py).

Modelling conventions:
* Python attribute values are modelled by `PyVal`: numbers (int/float,
  modelled exactly as rationals), strings, booleans and None.  A missing
  dictionary key and a present `None` value are conflated as `PyVal.none`:
  every `dict.get` in the embedded code either has no default (so absent
  reads as `None`) or a falsy default (`""` / `0`), and the code only ever
  branches on truthiness of those reads, so the conflation is
  behaviour-preserving.
* Python `bool` is a subtype of `int`, so `isinstance(v, (int, float))`
  is true for booleans and they act as 0/1 in arithmetic; `isNum`/`toQ`
  reproduce this.
* Fallible Python expressions (`+`, `/`, `>` on mixed types raise
  `TypeError`) are modelled in `Except String`.
* `round(x, 3)` on a float uses round-half-to-even; it is modelled
  exactly on rationals by `pyRound3`.
-/

namespace AlfaRec

/-- Model of a Python attribute value: number, string, boolean or None
(absent keys read as None, see the header comment). -/
inductive PyVal where
  | none : PyVal
  | num (q : ℚ) : PyVal
  | str (s : String) : PyVal
  | bool (b : Bool) : PyVal
deriving DecidableEq

/-- A client attribute mapping (`client_data`): total map from key to value,
with `PyVal.none` for absent keys. -/
abbrev Attrs := String → PyVal

/-- Python truthiness: None, 0, "" and False are falsy. -/
def pyTruthy : PyVal → Bool
  | .none => false
  | .num q => q != 0
  | .str s => s != ""
  | .bool b => b

/-- Python `isinstance(v, (int, float))`; true for booleans as well. -/
def isNum : PyVal → Bool
  | .num _ => true
  | .bool _ => true
  | _ => false

/-- Numeric value of a `PyVal` (booleans count as 0/1); only meaningful
when `isNum` holds. -/
def toQ : PyVal → ℚ
  | .num q => q
  | .bool b => if b then 1 else 0
  | _ => 0

/-- Python `client_data.get(k, d)` (absent/None conflation as above). -/
def pyGet (a : Attrs) (k : String) (d : PyVal) : PyVal :=
  match a k with
  | .none => d
  | v => v

/-- Python `v or d`. -/
def pyOr (v d : PyVal) : PyVal :=
  if pyTruthy v then v else d

/-- Python `+` on attribute values: numbers (and booleans) add, strings
concatenate, every mixed combination raises `TypeError`. -/
def pyAdd : PyVal → PyVal → Except String PyVal
  | .str s, .str t => .ok (.str (s ++ t))
  | a, b =>
      if isNum a && isNum b then .ok (.num (toQ a + toQ b))
      else .error "TypeError"

/-- Python `v / 12` (the only division with a possibly non-numeric left
operand in the scorer); raises `TypeError` on non-numbers. -/
def pyDiv12 (v : PyVal) : Except String PyVal :=
  if isNum v then .ok (.num (toQ v / 12)) else .error "TypeError"

/-- Python `int(q)`: truncation toward zero. -/
def pyInt (q : ℚ) : ℤ :=
  if 0 ≤ q then ⌊q⌋ else ⌈q⌉

/-- Whether `pat` matches at the head of `s` (character lists). -/
def leadMatch : List Char → List Char → Bool
  | [], _ => true
  | _ :: _, [] => false
  | c :: cs, d :: ds => c == d && leadMatch cs ds

/-- Whether `pat` occurs somewhere in `s` (character lists). -/
def occursIn (pat : List Char) : List Char → Bool
  | [] => pat.isEmpty
  | c :: rest => leadMatch pat (c :: rest) || occursIn pat rest

/-- Python `pat in s` for strings. -/
def strContains (s pat : String) : Bool :=
  occursIn pat.data s.data

/-- Python `str.lower` on the characters the embedded code meets:
ASCII letters plus the Cyrillic letters used by the catalog texts. -/
def charLower (c : Char) : Char :=
  if 'A' ≤ c ∧ c ≤ 'Z' then Char.ofNat (c.toNat + 32)
  else if 'А' ≤ c ∧ c ≤ 'Я' then Char.ofNat (c.toNat + 32)
  else if c = 'Ё' then 'ё'
  else c

/-- Python `s.lower()`. -/
def pyLower (s : String) : String :=
  String.mk (s.data.map charLower)

/-- Python `str(v)` as used on `incomeValueCategory` before the lexicon
substring checks.  Strings are themselves; numeric representations (as in
Python) contain only digits and punctuation, hence can never contain any
of the letter-bearing lexicon tokens. -/
def pyStrOf : PyVal → String
  | .str s => s
  | .bool b => if b then "True" else "False"
  | .none => "None"
  | .num q => toString q.num ++ (if q.den = 1 then "" else "/" ++ toString q.den)

/- ## Risk scorer (app/services/risk_service.py, calculate_risk_score) -/

/-- Factor 1: income level risk (weight 0.15). -/
def incomeRisk (income_value : PyVal) : ℚ :=
  if isNum income_value then
    if toQ income_value < 30000 then 0.8
    else if toQ income_value < 50000 then 0.7
    else if toQ income_value < 100000 then 0.5
    else if toQ income_value < 200000 then 0.3
    else 0.2
  else 0.5

/-- The `total_debt` sum (lines 52-58): three `get(...) or 0` values added
with Python `+`; a truthy string value makes the addition raise. -/
def totalDebt (a : Attrs) : Except String PyVal :=
  match pyAdd (pyOr (a "hdb_outstand_sum") (.num 0))
              (pyOr (a "hdb_relend_outstand_sum") (.num 0)) with
  | .error e => .error e
  | .ok s => pyAdd s (pyOr (a "loan_cur_amt") (.num 0))

/-- Factor 2: debt-to-income risk (weight 0.20). -/
def dtiRisk (income_value total_debt : PyVal) : ℚ :=
  if isNum income_value = true ∧ toQ income_value > 0 then
    if (if isNum total_debt then toQ total_debt / toQ income_value else 0) > 0.8 then 0.9
    else if (if isNum total_debt then toQ total_debt / toQ income_value else 0) > 0.6 then 0.8
    else if (if isNum total_debt then toQ total_debt / toQ income_value else 0) > 0.4 then 0.6
    else if (if isNum total_debt then toQ total_debt / toQ income_value else 0) > 0.2 then 0.4
    else 0.2
  else 0.3

/-- The `monthly_payment` value (lines 77-79):
`(get(...) or 0) / 12 if get(...) else 0`. -/
def monthlyPayment (a : Attrs) : Except String PyVal :=
  if pyTruthy (a "dp_ils_paymentssum_avg_12m") then
    pyDiv12 (pyOr (a "dp_ils_paymentssum_avg_12m") (.num 0))
  else .ok (.num 0)

/-- Factor 3: monthly payment to monthly income risk (weight 0.15). -/
def paymentRatioRisk (income_value monthly_payment : PyVal) : ℚ :=
  if isNum income_value = true ∧ toQ income_value > 0 then
    if toQ income_value / 12 > 0 then
      if (if isNum monthly_payment then toQ monthly_payment / (toQ income_value / 12) else 0) > 0.5 then 0.9
      else if (if isNum monthly_payment then toQ monthly_payment / (toQ income_value / 12) else 0) > 0.4 then 0.7
      else if (if isNum monthly_payment then toQ monthly_payment / (toQ income_value / 12) else 0) > 0.3 then 0.5
      else if (if isNum monthly_payment then toQ monthly_payment / (toQ income_value / 12) else 0) > 0.2 then 0.4
      else 0.2
    else 0.3
  else 0.3

/-- Factor 4: age risk (weight 0.05); Python applies `int(age)` first. -/
def ageRisk (age : PyVal) : ℚ :=
  if isNum age then
    if pyInt (toQ age) < 22 then 0.6
    else if pyInt (toQ age) < 30 then 0.5
    else if pyInt (toQ age) < 60 then 0.4
    else 0.5
  else 0.5

/-- The `overdue_sum` value (lines 114-120): three `get(...) or 0` values
added with Python `+`. -/
def overdueSum (a : Attrs) : Except String PyVal :=
  match pyAdd (pyOr (a "hdb_bki_total_max_overdue_sum") (.num 0))
              (pyOr (a "ovrd_sum") (.num 0)) with
  | .error e => .error e
  | .ok s => pyAdd s (pyOr (a "hdb_ovrd_sum") (.num 0))

/-- Factor 5: overdue payments risk (weight 0.20). -/
def overdueRiskPy (overdue_sum : PyVal) : ℚ :=
  if isNum overdue_sum = true ∧ toQ overdue_sum > 0 then
    if toQ overdue_sum > 100000 then 0.9
    else if toQ overdue_sum > 50000 then 0.8
    else if toQ overdue_sum > 20000 then 0.6
    else if toQ overdue_sum > 5000 then 0.5
    else 0.4
  else 0.3

/-- Factor 6: number of loans risk (weight 0.08); the two counts are
coerced to 0 when non-numeric before adding. -/
def loansRisk (loan_cnt other_credits : PyVal) : ℚ :=
  if (if isNum loan_cnt then toQ loan_cnt else 0)
      + (if isNum other_credits then toQ other_credits else 0) = 0 then 0.5
  else if (if isNum loan_cnt then toQ loan_cnt else 0)
      + (if isNum other_credits then toQ other_credits else 0) = 1 then 0.4
  else if (if isNum loan_cnt then toQ loan_cnt else 0)
      + (if isNum other_credits then toQ other_credits else 0) ≤ 3 then 0.5
  else if (if isNum loan_cnt then toQ loan_cnt else 0)
      + (if isNum other_credits then toQ other_credits else 0) ≤ 5 then 0.6
  else 0.7

/-- Factor 7: credit-history request recency risk (weight 0.05). -/
def requestRisk (days_after_last_request : PyVal) : ℚ :=
  if isNum days_after_last_request then
    if toQ days_after_last_request < 30 then 0.7
    else if toQ days_after_last_request < 90 then 0.5
    else if toQ days_after_last_request < 180 then 0.4
    else 0.3
  else 0.3

/-- Factor 8: loan application rejection risk (weight 0.05). -/
def rejectionRisk (loan_success : PyVal) : ℚ :=
  if isNum loan_success then
    if toQ loan_success = 0 then 0.8
    else if toQ loan_success < 0.3 then 0.7
    else if toQ loan_success < 0.5 then 0.5
    else 0.3
  else 0.3

/-- Factor 9: dependents risk (weight 0.05). -/
def dependentsRisk (income_value per_capita : PyVal) : ℚ :=
  if income_value ≠ PyVal.none ∧ per_capita ≠ PyVal.none then
    if isNum income_value = true ∧ isNum per_capita = true ∧ toQ income_value > 0 then
      if toQ per_capita < toQ income_value * 0.5 then 0.6
      else if toQ per_capita < toQ income_value * 0.7 then 0.5
      else 0.3
    else 0.4
  else 0.4

/-- Factor 10: job stability risk (weight 0.02). -/
def stabilityRisk (seniority : PyVal) : ℚ :=
  if isNum seniority then
    if toQ seniority > 1825 then 0.2
    else if toQ seniority > 1095 then 0.3
    else if toQ seniority > 365 then 0.4
    else if toQ seniority > 180 then 0.5
    else 0.6
  else 0.5

/-- Round-half-to-even of a rational to an integer (Python `round`). -/
def roundHalfEven (x : ℚ) : ℤ :=
  if x - ⌊x⌋ < 1/2 then ⌊x⌋
  else if 1/2 < x - ⌊x⌋ then ⌊x⌋ + 1
  else if ⌊x⌋ % 2 = 0 then ⌊x⌋ else ⌊x⌋ + 1

/-- Python `round(x, 3)`. -/
def pyRound3 (x : ℚ) : ℚ :=
  (roundHalfEven (x * 1000) : ℚ) / 1000

/-- The pure tail of `calculate_risk_score` (lines 217-230): the weighted
average of the ten factors divided by the total weight, clamped to [0,1]
and rounded to 3 decimals (with the source's dead `total_weight == 0`
guard kept). -/
def riskValue (a : Attrs) (total_debt monthly_payment overdue_sum : PyVal) : ℚ :=
  if (0.15 + 0.20 + 0.15 + 0.05 + 0.20 + 0.08 + 0.05 + 0.05 + 0.05 + 0.02 : ℚ) = 0 then 0.5
  else
    pyRound3 (max 0 (min 1
      ((incomeRisk (a "incomeValue") * 0.15
        + dtiRisk (a "incomeValue") total_debt * 0.20
        + paymentRatioRisk (a "incomeValue") monthly_payment * 0.15
        + ageRisk (a "age") * 0.05
        + overdueRiskPy overdue_sum * 0.20
        + loansRisk (pyOr (a "loan_cnt") (.num 0)) (pyOr (a "other_credits_count") (.num 0)) * 0.08
        + requestRisk (a "days_after_last_request") * 0.05
        + rejectionRisk (a "vert_pil_loan_application_success_3m") * 0.05
        + dependentsRisk (a "incomeValue") (a "per_capita_income_rur_amt") * 0.05
        + stabilityRisk (a "dp_ils_total_seniority") * 0.02)
       / (0.15 + 0.20 + 0.15 + 0.05 + 0.20 + 0.08 + 0.05 + 0.05 + 0.05 + 0.02))))

/-- `calculate_risk_score(client_data)`: the fallible sums are evaluated
in source order (total debt, monthly payment, overdue sum), then the pure
weighted average is taken. -/
def calculate_risk_score (a : Attrs) : Except String ℚ :=
  match totalDebt a with
  | .error e => .error e
  | .ok total_debt =>
    match monthlyPayment a with
    | .error e => .error e
    | .ok monthly_payment =>
      match overdueSum a with
      | .error e => .error e
      | .ok overdue_sum => .ok (riskValue a total_debt monthly_payment overdue_sum)

/- ## Segment classifier (app/api/v1/recommendations.py, determine_segment) -/

/-- The numeric fallback of `determine_segment` (lines 105-118), reached
when the income category is falsy or matches no lexicon entry. -/
def segFallback (income_value : PyVal) (label_500k_to_1m label_above_1m : ℚ)
    (predicted_income : PyVal) : String :=
  if (if isNum predicted_income then toQ predicted_income
      else if pyTruthy income_value = true ∧ isNum income_value = true then toQ income_value
      else 50000) > 200000 ∨ label_above_1m > 0.5 then "high_income"
  else if (if isNum predicted_income then toQ predicted_income
      else if pyTruthy income_value = true ∧ isNum income_value = true then toQ income_value
      else 50000) > 100000 ∨ label_500k_to_1m > 0.3 then "medium_income"
  else if (if isNum predicted_income then toQ predicted_income
      else if pyTruthy income_value = true ∧ isNum income_value = true then toQ income_value
      else 50000) > 50000
      ∨ (pyTruthy income_value = true ∧ isNum income_value = true ∧ toQ income_value > 50000)
    then "medium_income"
  else "low_income"

/-- The category-lexicon substring tests of `determine_segment`
(lines 92-103), as one predicate over the lowered category string. -/
def categoryLexMatch (s : String) : Bool :=
  strContains s "above_1m" || strContains s "1m" || strContains s "above" ||
  strContains s "500k" || strContains s "500_1m" || strContains s "500k_to_1m" ||
  strContains s "200_500" || strContains s "200k_to_500k" ||
  strContains s "100_200" || strContains s "100k_to_200k" ||
  strContains s "50_100" || strContains s "50k_to_100k"

/-- `determine_segment(client_data, predicted_income)`: the category
lexicon takes precedence (lines 92-103, falling through to the numeric
fallback when nothing matches); the unused `label_Below_50k_share_r1`
read of the source is dropped as dead code. -/
def determine_segment (client_data : Attrs) (predicted_income : PyVal) : String :=
  if pyTruthy (pyGet client_data "incomeValueCategory" (.str "")) then
    if strContains (pyLower (pyStrOf (pyGet client_data "incomeValueCategory" (.str "")))) "above_1m"
        || strContains (pyLower (pyStrOf (pyGet client_data "incomeValueCategory" (.str "")))) "1m"
        || strContains (pyLower (pyStrOf (pyGet client_data "incomeValueCategory" (.str "")))) "above"
      then "high_income"
    else if strContains (pyLower (pyStrOf (pyGet client_data "incomeValueCategory" (.str "")))) "500k"
        || strContains (pyLower (pyStrOf (pyGet client_data "incomeValueCategory" (.str "")))) "500_1m"
        || strContains (pyLower (pyStrOf (pyGet client_data "incomeValueCategory" (.str "")))) "500k_to_1m"
      then "high_income"
    else if strContains (pyLower (pyStrOf (pyGet client_data "incomeValueCategory" (.str "")))) "200_500"
        || strContains (pyLower (pyStrOf (pyGet client_data "incomeValueCategory" (.str "")))) "200k_to_500k"
      then "high_income"
    else if strContains (pyLower (pyStrOf (pyGet client_data "incomeValueCategory" (.str "")))) "100_200"
        || strContains (pyLower (pyStrOf (pyGet client_data "incomeValueCategory" (.str "")))) "100k_to_200k"
      then "medium_income"
    else if strContains (pyLower (pyStrOf (pyGet client_data "incomeValueCategory" (.str "")))) "50_100"
        || strContains (pyLower (pyStrOf (pyGet client_data "incomeValueCategory" (.str "")))) "50k_to_100k"
      then "medium_income"
    else segFallback (client_data "incomeValue")
      (let v := pyOr (client_data "label_500k_to_1M_share_r1") (.num 0); if isNum v then toQ v else 0)
      (let v := pyOr (client_data "label_Above_1M_share_r1") (.num 0); if isNum v then toQ v else 0)
      predicted_income
  else segFallback (client_data "incomeValue")
    (let v := pyOr (client_data "label_500k_to_1M_share_r1") (.num 0); if isNum v then toQ v else 0)
    (let v := pyOr (client_data "label_Above_1M_share_r1") (.num 0); if isNum v then toQ v else 0)
    predicted_income

/- ## Recommendation engine (app/api/v1/recommendations.py, lines 16-69
and 184-305)

Python product dicts are shared, mutable objects; to settle the
frame/no-mutation claim the embedding threads an explicit heap: a `Store`
maps product ids to configurations, the six catalog entries live at ids
0-5, and every dict the code creates (the synthetic offers, and the
`copy()` taken before a reason is rewritten) is allocated at the next
free id.  A write to an existing id would model in-place mutation; the
embedding performs one exactly where the Python code would. -/

/-- A product configuration dict (`SEGMENT_PRODUCTS` entry or synthetic
offer); `limit`/`rate`/`description` are absent in some entries. -/
structure ProductCfg where
  product_name : String
  product_type : String
  limit : Option ℚ
  rate : Option ℚ
  reason : String
  description : Option String
deriving DecidableEq

/-- An output `Recommendation` (app/schemas/recommendations.py). -/
structure Recommendation where
  id : ℕ
  product_name : String
  product_type : String
  limit : Option ℚ
  rate : Option ℚ
  reason : String
  description : Option String
deriving DecidableEq

/-- The heap of product dicts, indexed by id. -/
abbrev Store := ℕ → ProductCfg

/-- SEGMENT_PRODUCTS["high_income"][0]. -/
def premiumCard : ProductCfg where
  product_name := "Премиум кредитная карта"
  product_type := "credit_card"
  limit := some 1000000
  rate := some (125/10)
  reason := "Высокий прогнозируемый доход позволяет рекомендовать премиум продукты"
  description := some "Премиум кредитная карта с кэшбэком 5% и льготным периодом"

/-- SEGMENT_PRODUCTS["high_income"][1]. -/
def investDeposit : ProductCfg where
  product_name := "Инвестиционный депозит"
  product_type := "deposit"
  limit := Option.none
  rate := some (85/10)
  reason := "Высокий доход позволяет рекомендовать инвестиционные продукты"
  description := some "Депозит с повышенной процентной ставкой для долгосрочных вложений"

/-- SEGMENT_PRODUCTS["high_income"][2]. -/
def premiumCredit : ProductCfg where
  product_name := "Премиум кредит"
  product_type := "credit"
  limit := some 5000000
  rate := some (105/10)
  reason := "Премиум сегмент и высокий прогнозируемый доход"
  description := some "Кредит на крупные покупки с льготной процентной ставкой"

/-- SEGMENT_PRODUCTS["medium_income"][0]. -/
def standardCard : ProductCfg where
  product_name := "Стандартная кредитная карта"
  product_type := "credit_card"
  limit := some 500000
  rate := some 18
  reason := "Подходит для клиента со средним уровнем дохода"
  description := some "Кредитная карта с базовыми условиями"

/-- SEGMENT_PRODUCTS["medium_income"][1]. -/
def accumDeposit : ProductCfg where
  product_name := "Накопительный депозит"
  product_type := "deposit"
  limit := Option.none
  rate := some 7
  reason := "Рекомендуется для накопления средств"
  description := some "Депозит с возможностью пополнения"

/-- SEGMENT_PRODUCTS["low_income"][0]. -/
def basicCard : ProductCfg where
  product_name := "Базовая кредитная карта"
  product_type := "credit_card"
  limit := some 200000
  rate := some 24
  reason := "Базовый продукт для клиентов с низким доходом"
  description := some "Кредитная карта с базовыми условиями"

/-- The synthetic conservative savings offer appended for low-risk
clients (lines 229-235). -/
def savingsAccount : ProductCfg where
  product_name := "Накопительный счет"
  product_type := "deposit"
  limit := Option.none
  rate := some (65/10)
  reason := "Низкий риск-скор позволяет рекомендовать накопительные продукты"
  description := some "Накопительный счет с возможностью пополнения и снятия"

/-- The synthetic basic card for high-risk low-income clients
(lines 254-263). -/
def highRiskBasicCard : ProductCfg where
  product_name := "Базовая кредитная карта"
  product_type := "credit_card"
  limit := some 100000
  rate := some 28
  reason := "Высокий риск-скор требует консервативных условий"
  description := some "Базовая кредитная карта с ограниченным лимитом"

/-- Placeholder for unallocated heap cells (never read by the code). -/
def defaultCfg : ProductCfg where
  product_name := ""
  product_type := ""
  limit := Option.none
  rate := Option.none
  reason := ""
  description := Option.none

/-- The process-start heap: the six catalog dicts at ids 0-5. -/
def initStore : Store := fun i =>
  [premiumCard, investDeposit, premiumCredit, standardCard, accumDeposit, basicCard].getD i defaultCfg

/-- Heap write. -/
def writeStore (st : Store) (i : ℕ) (p : ProductCfg) : Store :=
  fun j => if j = i then p else st j

/-- `SEGMENT_PRODUCTS.get(segment, SEGMENT_PRODUCTS["low_income"])` as a
list of catalog ids. -/
def baseIds (segment : String) : List ℕ :=
  if segment = "high_income" then [0, 1, 2]
  else if segment = "medium_income" then [3, 4]
  else [5]

/-- The risk-tier product selection (lines 191-264): returns the chosen
product ids together with the heap and next free id after allocating any
synthetic offers. -/
def selectConfigs (risk_score : ℚ) (segment : String) (predicted_income : ℚ)
    (st : Store) (cnt : ℕ) : List ℕ × Store × ℕ :=
  if risk_score < 4/10 then
    ((if segment = "low_income" then baseIds segment ++ [3, 4]
      else if segment = "medium_income" then
        baseIds segment ++ ([0, 1, 2].filter (fun i =>
          if (st i).product_type = "deposit" then true
          else match (st i).limit with
            | some l => l != 0 && l ≤ (if predicted_income ≠ 0 then predicted_income * 3 else 300000)
            | Option.none => false))
      else baseIds segment) ++ [cnt],
     writeStore st cnt savingsAccount, cnt + 1)
  else if risk_score < 7/10 then
    (baseIds segment, st, cnt)
  else
    if segment = "high_income" then ([3, 4], st, cnt)
    else if segment = "medium_income" then ([5], st, cnt)
    else ([cnt], writeStore st cnt highRiskBasicCard, cnt + 1)

/-- `income_value = client_data.get("incomeValue") or predicted_income`
(line 273). -/
def capBase (attrs : Attrs) (predicted_income : ℚ) : PyVal :=
  pyOr (attrs "incomeValue") (.num predicted_income)

/-- Python `income_value * 4` for the values `income_value` can take here:
numbers scale, booleans coerce to 0/1, strings repeat (`str * int`). -/
def pyMul4 : PyVal → PyVal
  | .num q => .num (q * 4)
  | .bool b => .num (if b then 4 else 0)
  | .str s => .str (s ++ s ++ s ++ s)
  | .none => .none

/-- `max_reasonable_credit_limit = income_value * 4 if income_value else None`
(line 274). -/
def maxReasonableLimit (attrs : Attrs) (predicted_income : ℚ) : Option PyVal :=
  if pyTruthy (capBase attrs predicted_income) then some (pyMul4 (capBase attrs predicted_income))
  else Option.none

/-- Python `credit_limit > max_reasonable_credit_limit` where
`credit_limit` is a float: comparing against a string raises `TypeError`. -/
def pyGtQ (l : ℚ) : PyVal → Except String Bool
  | .num q => .ok (decide (q < l))
  | .bool b => .ok (decide ((if b then (1:ℚ) else 0) < l))
  | _ => .error "TypeError"

/-- The note appended to a capped offer's reason (line 291). -/
def limitNote : String := " (лимит скорректирован с учетом дохода)"

/-- Building one output `Recommendation` from a product dict (lines
293-301). -/
def mkRec (i : ℕ) (c : ProductCfg) (lim : Option ℚ) : Recommendation where
  id := i
  product_name := c.product_name
  product_type := c.product_type
  limit := lim
  rate := c.rate
  reason := c.reason
  description := c.description

/-- One iteration of the post-processing loop (lines 278-301) on the
product dict at `pid`: cap the credit limit and, if the cap fired and the
reason does not already mention the limit, `copy()` the dict (a fresh
allocation at `cnt`) and rewrite the copy's reason. -/
def processOne (mrl : Option PyVal) (idx pid : ℕ) (st : Store) (cnt : ℕ) :
    Except String (Recommendation × Store × ℕ) :=
  match (st pid).limit, mrl with
  | some l0, some mv =>
    if l0 ≠ 0 ∧ pyTruthy mv = true then
      if (st pid).product_type = "credit_card" ∨ (st pid).product_type = "credit" then
        match pyGtQ l0 mv with
        | .error e => .error e
        | .ok gt =>
          if gt then
            if strContains (pyLower (st pid).reason) "лимит" = false then
              .ok (mkRec idx { st pid with reason := (st pid).reason ++ limitNote } (some (toQ mv)),
                   writeStore st cnt { st pid with reason := (st pid).reason ++ limitNote },
                   cnt + 1)
            else .ok (mkRec idx (st pid) (some (toQ mv)), st, cnt)
          else .ok (mkRec idx (st pid) (some l0), st, cnt)
      else .ok (mkRec idx (st pid) (some l0), st, cnt)
    else .ok (mkRec idx (st pid) (st pid).limit, st, cnt)
  | _, _ => .ok (mkRec idx (st pid) (st pid).limit, st, cnt)

/-- The post-processing loop over the selected ids, numbering from `idx`;
an exception aborts the loop, keeping the heap written so far. -/
def postProcessAux (mrl : Option PyVal) :
    ℕ → List ℕ → Store → ℕ → Store × ℕ × Except String (List Recommendation)
  | _, [], st, cnt => (st, cnt, .ok [])
  | idx, pid :: rest, st, cnt =>
    match processOne mrl idx pid st cnt with
    | .error e => (st, cnt, .error e)
    | .ok (r, st1, cnt1) =>
      ((postProcessAux mrl (idx + 1) rest st1 cnt1).1,
       (postProcessAux mrl (idx + 1) rest st1 cnt1).2.1,
       (postProcessAux mrl (idx + 1) rest st1 cnt1).2.2.map (fun recs => r :: recs))

/-- Post-processing (lines 271-301): numbering starts at 1. -/
def postProcess (attrs : Attrs) (predicted_income : ℚ) (ids : List ℕ)
    (st : Store) (cnt : ℕ) : Store × ℕ × Except String (List Recommendation) :=
  postProcessAux (maxReasonableLimit attrs predicted_income) 1 ids st cnt

/-- The recommendation engine (lines 184-305) as run on the process-start
catalog: tier selection, the empty-list fallback to the low-income
catalog (lines 266-269), then post-processing. -/
def build_recommendations (attrs : Attrs) (predicted_income risk_score : ℚ)
    (segment : String) : Store × ℕ × Except String (List Recommendation) :=
  postProcess attrs predicted_income
    (if (selectConfigs risk_score segment predicted_income initStore 6).1 = [] then [5]
     else (selectConfigs risk_score segment predicted_income initStore 6).1)
    (selectConfigs risk_score segment predicted_income initStore 6).2.1
    (selectConfigs risk_score segment predicted_income initStore 6).2.2

/- ## Helper lemmas: ranges of the ten factor sub-scores -/

theorem incomeRisk_bounds (v : PyVal) : 2/10 ≤ incomeRisk v ∧ incomeRisk v ≤ 8/10 := by
  unfold incomeRisk; split_ifs <;> norm_num

theorem dtiRisk_bounds (v w : PyVal) : 2/10 ≤ dtiRisk v w ∧ dtiRisk v w ≤ 9/10 := by
  unfold dtiRisk; split_ifs <;> norm_num

theorem paymentRatioRisk_bounds (v w : PyVal) :
    2/10 ≤ paymentRatioRisk v w ∧ paymentRatioRisk v w ≤ 9/10 := by
  unfold paymentRatioRisk; split_ifs <;> norm_num

theorem ageRisk_bounds (v : PyVal) : 4/10 ≤ ageRisk v ∧ ageRisk v ≤ 6/10 := by
  unfold ageRisk; split_ifs <;> norm_num

theorem overdueRiskPy_bounds (v : PyVal) : 3/10 ≤ overdueRiskPy v ∧ overdueRiskPy v ≤ 9/10 := by
  unfold overdueRiskPy; split_ifs <;> norm_num

theorem loansRisk_bounds (v w : PyVal) : 4/10 ≤ loansRisk v w ∧ loansRisk v w ≤ 7/10 := by
  unfold loansRisk; split_ifs <;> norm_num

theorem requestRisk_bounds (v : PyVal) : 3/10 ≤ requestRisk v ∧ requestRisk v ≤ 7/10 := by
  unfold requestRisk; split_ifs <;> norm_num

theorem rejectionRisk_bounds (v : PyVal) : 3/10 ≤ rejectionRisk v ∧ rejectionRisk v ≤ 8/10 := by
  unfold rejectionRisk; split_ifs <;> norm_num

theorem dependentsRisk_bounds (v w : PyVal) :
    3/10 ≤ dependentsRisk v w ∧ dependentsRisk v w ≤ 6/10 := by
  unfold dependentsRisk; split_ifs <;> norm_num

theorem stabilityRisk_bounds (v : PyVal) : 2/10 ≤ stabilityRisk v ∧ stabilityRisk v ≤ 6/10 := by
  unfold stabilityRisk; split_ifs <;> norm_num

/- ## Helper lemmas: round-half-to-even stays within integer bounds -/

theorem roundHalfEven_ge (n : ℤ) (x : ℚ) (h : (n : ℚ) ≤ x) : n ≤ roundHalfEven x := by
  have hfl : n ≤ ⌊x⌋ := Int.le_floor.mpr h
  unfold roundHalfEven; split_ifs <;> omega

theorem roundHalfEven_le (n : ℤ) (x : ℚ) (h : x ≤ (n : ℚ)) : roundHalfEven x ≤ n := by
  have hfl : ⌊x⌋ ≤ n := by
    have := Int.floor_le_floor h
    simpa using this
  have hfx : (⌊x⌋ : ℚ) ≤ x := Int.floor_le x
  unfold roundHalfEven
  split_ifs with h1 h2 h3
  · exact hfl
  · -- the fractional part exceeds 1/2, so x is strictly above ⌊x⌋
    have hlt : (⌊x⌋ : ℚ) < x := by linarith
    have : (⌊x⌋ : ℚ) < (n : ℚ) := lt_of_lt_of_le hlt h
    have : ⌊x⌋ < n := by exact_mod_cast this
    omega
  · exact hfl
  · -- the fractional part equals 1/2, so again x is strictly above ⌊x⌋
    have hhalf : x - ⌊x⌋ = 1/2 := le_antisymm (not_lt.mp h2) (not_lt.mp h1)
    have hlt : (⌊x⌋ : ℚ) < x := by linarith
    have : (⌊x⌋ : ℚ) < (n : ℚ) := lt_of_lt_of_le hlt h
    have : ⌊x⌋ < n := by exact_mod_cast this
    omega

theorem pyRound3_ge (m : ℤ) (x : ℚ) (h : (m : ℚ)/1000 ≤ x) : (m : ℚ)/1000 ≤ pyRound3 x := by
  have h1 : (m : ℚ) ≤ x * 1000 := by linarith
  have h2 : m ≤ roundHalfEven (x * 1000) := roundHalfEven_ge m (x * 1000) h1
  have h3 : (m : ℚ) ≤ (roundHalfEven (x * 1000) : ℚ) := by exact_mod_cast h2
  unfold pyRound3; linarith

theorem pyRound3_le (m : ℤ) (x : ℚ) (h : x ≤ (m : ℚ)/1000) : pyRound3 x ≤ (m : ℚ)/1000 := by
  have h1 : x * 1000 ≤ (m : ℚ) := by linarith
  have h2 : roundHalfEven (x * 1000) ≤ m := roundHalfEven_le m (x * 1000) h1
  have h3 : (roundHalfEven (x * 1000) : ℚ) ≤ (m : ℚ) := by exact_mod_cast h2
  unfold pyRound3; linarith

/-- The pure weighted average lands in [0.261, 0.818] for every input:
each factor is bounded by its ladder's extremes and the weights sum to 1,
so the clamp to [0,1] never fires and rounding stays inside the interval. -/
theorem riskValue_bounds (a : Attrs) (td mp os : PyVal) :
    261/1000 ≤ riskValue a td mp os ∧ riskValue a td mp os ≤ 818/1000 := by
  obtain ⟨h1a, h1b⟩ := incomeRisk_bounds (a "incomeValue")
  obtain ⟨h2a, h2b⟩ := dtiRisk_bounds (a "incomeValue") td
  obtain ⟨h3a, h3b⟩ := paymentRatioRisk_bounds (a "incomeValue") mp
  obtain ⟨h4a, h4b⟩ := ageRisk_bounds (a "age")
  obtain ⟨h5a, h5b⟩ := overdueRiskPy_bounds os
  obtain ⟨h6a, h6b⟩ := loansRisk_bounds (pyOr (a "loan_cnt") (.num 0)) (pyOr (a "other_credits_count") (.num 0))
  obtain ⟨h7a, h7b⟩ := requestRisk_bounds (a "days_after_last_request")
  obtain ⟨h8a, h8b⟩ := rejectionRisk_bounds (a "vert_pil_loan_application_success_3m")
  obtain ⟨h9a, h9b⟩ := dependentsRisk_bounds (a "incomeValue") (a "per_capita_income_rur_amt")
  obtain ⟨h10a, h10b⟩ := stabilityRisk_bounds (a "dp_ils_total_seniority")
  unfold riskValue
  rw [if_neg (by norm_num)]
  have hlo : 261/1000 ≤
      (incomeRisk (a "incomeValue") * 0.15
        + dtiRisk (a "incomeValue") td * 0.20
        + paymentRatioRisk (a "incomeValue") mp * 0.15
        + ageRisk (a "age") * 0.05
        + overdueRiskPy os * 0.20
        + loansRisk (pyOr (a "loan_cnt") (.num 0)) (pyOr (a "other_credits_count") (.num 0)) * 0.08
        + requestRisk (a "days_after_last_request") * 0.05
        + rejectionRisk (a "vert_pil_loan_application_success_3m") * 0.05
        + dependentsRisk (a "incomeValue") (a "per_capita_income_rur_amt") * 0.05
        + stabilityRisk (a "dp_ils_total_seniority") * 0.02)
       / (0.15 + 0.20 + 0.15 + 0.05 + 0.20 + 0.08 + 0.05 + 0.05 + 0.05 + 0.02) := by
    rw [show (0.15 + 0.20 + 0.15 + 0.05 + 0.20 + 0.08 + 0.05 + 0.05 + 0.05 + 0.02 : ℚ) = 1 by norm_num, div_one]
    nlinarith
  have hhi : (incomeRisk (a "incomeValue") * 0.15
        + dtiRisk (a "incomeValue") td * 0.20
        + paymentRatioRisk (a "incomeValue") mp * 0.15
        + ageRisk (a "age") * 0.05
        + overdueRiskPy os * 0.20
        + loansRisk (pyOr (a "loan_cnt") (.num 0)) (pyOr (a "other_credits_count") (.num 0)) * 0.08
        + requestRisk (a "days_after_last_request") * 0.05
        + rejectionRisk (a "vert_pil_loan_application_success_3m") * 0.05
        + dependentsRisk (a "incomeValue") (a "per_capita_income_rur_amt") * 0.05
        + stabilityRisk (a "dp_ils_total_seniority") * 0.02)
       / (0.15 + 0.20 + 0.15 + 0.05 + 0.20 + 0.08 + 0.05 + 0.05 + 0.05 + 0.02) ≤ 818/1000 := by
    rw [show (0.15 + 0.20 + 0.15 + 0.05 + 0.20 + 0.08 + 0.05 + 0.05 + 0.05 + 0.02 : ℚ) = 1 by norm_num, div_one]
    nlinarith
  set w := (incomeRisk (a "incomeValue") * 0.15
        + dtiRisk (a "incomeValue") td * 0.20
        + paymentRatioRisk (a "incomeValue") mp * 0.15
        + ageRisk (a "age") * 0.05
        + overdueRiskPy os * 0.20
        + loansRisk (pyOr (a "loan_cnt") (.num 0)) (pyOr (a "other_credits_count") (.num 0)) * 0.08
        + requestRisk (a "days_after_last_request") * 0.05
        + rejectionRisk (a "vert_pil_loan_application_success_3m") * 0.05
        + dependentsRisk (a "incomeValue") (a "per_capita_income_rur_amt") * 0.05
        + stabilityRisk (a "dp_ils_total_seniority") * 0.02)
       / (0.15 + 0.20 + 0.15 + 0.05 + 0.20 + 0.08 + 0.05 + 0.05 + 0.05 + 0.02) with hw
  have hclamp : max 0 (min 1 w) = w := by
    rw [min_eq_right (by linarith), max_eq_right (by linarith)]
  rw [hclamp]
  constructor
  · have := pyRound3_ge 261 w (by push_cast; linarith)
    push_cast at this; linarith
  · have := pyRound3_le 818 w (by push_cast; linarith)
    push_cast at this; linarith

/- ## Helper lemmas: heap frame properties and post-processing shape -/

theorem selectConfigs_frame (r : ℚ) (seg : String) (p : ℚ) (st : Store) (cnt : ℕ) :
    cnt ≤ (selectConfigs r seg p st cnt).2.2 ∧
    ∀ j, j < cnt → (selectConfigs r seg p st cnt).2.1 j = st j := by
  unfold selectConfigs
  split_ifs <;>
    exact ⟨by dsimp only; omega, fun j hj => by simp [writeStore, Nat.ne_of_lt hj]⟩

theorem processOne_frame (mrl : Option PyVal) (idx pid : ℕ) (st : Store) (cnt : ℕ)
    (r : Recommendation) (st' : Store) (cnt' : ℕ)
    (h : processOne mrl idx pid st cnt = .ok (r, st', cnt')) :
    cnt ≤ cnt' ∧ ∀ j, j < cnt → st' j = st j := by
  unfold processOne at h
  repeat' split at h
  all_goals cases h
  all_goals exact ⟨by omega, fun j hj => by simp [writeStore, Nat.ne_of_lt hj]⟩

theorem postProcessAux_frame (mrl : Option PyVal) (ids : List ℕ) :
    ∀ (idx : ℕ) (st : Store) (cnt : ℕ),
    cnt ≤ (postProcessAux mrl idx ids st cnt).2.1 ∧
    ∀ j, j < cnt → (postProcessAux mrl idx ids st cnt).1 j = st j := by
  induction ids with
  | nil => intro idx st cnt; simp [postProcessAux]
  | cons pid rest ih =>
    intro idx st cnt
    unfold postProcessAux
    cases hp : processOne mrl idx pid st cnt with
    | error e => simp
    | ok v =>
      obtain ⟨r, st1, cnt1⟩ := v
      obtain ⟨hc, hs⟩ := processOne_frame mrl idx pid st cnt r st1 cnt1 hp
      obtain ⟨ihc, ihs⟩ := ih (idx + 1) st1 cnt1
      exact ⟨le_trans hc ihc, fun j hj => (ihs j (lt_of_lt_of_le hj hc)).trans (hs j hj)⟩

theorem postProcessAux_len (mrl : Option PyVal) (ids : List ℕ) :
    ∀ (idx : ℕ) (st : Store) (cnt : ℕ) (recs : List Recommendation),
    (postProcessAux mrl idx ids st cnt).2.2 = .ok recs → recs.length = ids.length := by
  induction ids with
  | nil => intro idx st cnt recs h; simp [postProcessAux] at h; simp [h]
  | cons pid rest ih =>
    intro idx st cnt recs h
    unfold postProcessAux at h
    cases hp : processOne mrl idx pid st cnt with
    | error e => rw [hp] at h; simp at h
    | ok v =>
      obtain ⟨r, st1, cnt1⟩ := v
      rw [hp] at h
      simp only at h
      cases hrec : (postProcessAux mrl (idx + 1) rest st1 cnt1).2.2 with
      | error e => rw [hrec] at h; simp [Except.map] at h
      | ok recs' =>
        rw [hrec] at h
        simp [Except.map] at h
        subst h
        simp [ih (idx + 1) st1 cnt1 recs' hrec]

theorem processOne_cap (mrl : Option PyVal) (idx pid : ℕ) (st : Store) (cnt : ℕ)
    (l0 q4 : ℚ)
    (hcredit : (st pid).product_type = "credit_card" ∨ (st pid).product_type = "credit")
    (hlim : (st pid).limit = some l0) (hl0 : l0 ≠ 0)
    (hmrl : mrl = some (.num q4)) (hq4 : q4 ≠ 0) :
    ∃ st' cnt', processOne mrl idx pid st cnt =
      .ok (mkRec idx
            (if q4 < l0 ∧ strContains (pyLower (st pid).reason) "лимит" = false
             then { st pid with reason := (st pid).reason ++ limitNote } else st pid)
            (some (min l0 q4)), st', cnt') := by
  subst hmrl
  have hT : l0 ≠ 0 ∧ pyTruthy (PyVal.num q4) = true := ⟨hl0, by simp [pyTruthy, hq4]⟩
  by_cases hlt : q4 < l0
  · by_cases hnote : strContains (pyLower (st pid).reason) "лимит" = false
    · refine ⟨writeStore st cnt { st pid with reason := (st pid).reason ++ limitNote }, cnt + 1, ?_⟩
      rw [min_eq_right hlt.le, if_pos ⟨hlt, hnote⟩]
      simp only [processOne, hlim, pyGtQ]
      rw [if_pos hT, if_pos hcredit]
      simp [decide_eq_true hlt, hnote, toQ]
    · refine ⟨st, cnt, ?_⟩
      rw [min_eq_right hlt.le, if_neg (fun hh => hnote hh.2)]
      simp only [processOne, hlim, pyGtQ]
      rw [if_pos hT, if_pos hcredit]
      simp [decide_eq_true hlt, hnote, toQ]
  · refine ⟨st, cnt, ?_⟩
    rw [min_eq_left (not_lt.mp hlt), if_neg (fun hh => hlt hh.1)]
    simp only [processOne, hlim, pyGtQ]
    rw [if_pos hT, if_pos hcredit]
    simp [decide_eq_false hlt]

theorem postProcessAux_cap (mrl : Option PyVal) (q4 : ℚ)
    (hmrl : mrl = some (.num q4)) (hq4 : q4 ≠ 0) (ids : List ℕ) :
    ∀ (idx : ℕ) (st : Store) (cnt : ℕ) (recs : List Recommendation),
    (postProcessAux mrl idx ids st cnt).2.2 = .ok recs →
    (∀ i ∈ ids, i < cnt) →
    ∀ (k : ℕ) (hk : k < ids.length) (hk2 : k < recs.length) (l0 : ℚ),
    ((st (ids.get ⟨k, hk⟩)).product_type = "credit_card"
      ∨ (st (ids.get ⟨k, hk⟩)).product_type = "credit") →
    (st (ids.get ⟨k, hk⟩)).limit = some l0 → l0 ≠ 0 →
    (recs.get ⟨k, hk2⟩).limit = some (min l0 q4) ∧
    (recs.get ⟨k, hk2⟩).reason =
      (if q4 < l0 ∧ strContains (pyLower (st (ids.get ⟨k, hk⟩)).reason) "лимит" = false
       then (st (ids.get ⟨k, hk⟩)).reason ++ limitNote
       else (st (ids.get ⟨k, hk⟩)).reason) := by
  induction ids with
  | nil => intro idx st cnt recs h hin k hk; exact absurd hk (by simp)
  | cons pid rest ih =>
    intro idx st cnt recs h hin k hk hk2 l0 hcredit hlim hl0
    rw [postProcessAux] at h
    cases hp : processOne mrl idx pid st cnt with
    | error e => rw [hp] at h; simp at h
    | ok v =>
      obtain ⟨r, st1, cnt1⟩ := v
      rw [hp] at h
      simp only at h
      cases hrec : (postProcessAux mrl (idx + 1) rest st1 cnt1).2.2 with
      | error e => rw [hrec] at h; simp [Except.map] at h
      | ok recs' =>
        rw [hrec] at h
        simp only [Except.map, Except.ok.injEq] at h
        subst h
        obtain ⟨hc1, hs1⟩ := processOne_frame mrl idx pid st cnt r st1 cnt1 hp
        cases k with
        | zero =>
          obtain ⟨st2, cnt2, hpo⟩ :=
            processOne_cap mrl idx pid st cnt l0 q4 hcredit hlim hl0 hmrl hq4
          rw [hp] at hpo
          have hr : r = mkRec idx
              (if q4 < l0 ∧ strContains (pyLower (st pid).reason) "лимит" = false
               then { st pid with reason := (st pid).reason ++ limitNote } else st pid)
              (some (min l0 q4)) := by
            have := hpo
            simp only [Except.ok.injEq, Prod.mk.injEq] at this
            exact this.1
          subst hr
          constructor
          · simp [mkRec]
          · simp only [List.get]
            split_ifs <;> simp [mkRec]
        | succ k' =>
          have hmem : rest.get ⟨k', by simpa using Nat.lt_of_succ_lt_succ hk⟩ ∈ rest :=
            List.get_mem rest k' (by simpa using Nat.lt_of_succ_lt_succ hk)
          have hx : st1 (rest.get ⟨k', by simpa using Nat.lt_of_succ_lt_succ hk⟩)
              = st (rest.get ⟨k', by simpa using Nat.lt_of_succ_lt_succ hk⟩) :=
            hs1 _ (hin _ (List.mem_cons_of_mem pid hmem))
          have hget : (pid :: rest).get ⟨k' + 1, hk⟩
              = rest.get ⟨k', by simpa using Nat.lt_of_succ_lt_succ hk⟩ := rfl
          rw [hget] at hcredit hlim ⊢
          have := ih (idx + 1) st1 cnt1 recs' hrec
            (fun i hi => lt_of_lt_of_le (hin i (List.mem_cons_of_mem pid hi)) hc1)
            k' (by simpa using Nat.lt_of_succ_lt_succ hk)
            (by simpa using Nat.lt_of_succ_lt_succ hk2) l0
            (by rw [hx]; exact hcredit) (by rw [hx]; exact hlim) hl0
          rw [hx] at this
          exact this

/- ## Concrete inputs used by witnesses and counterexamples -/

/-- The empty attribute map. -/
def attrsEmpty : Attrs := fun _ => PyVal.none

/-- An attribute map whose only entry is a truthy string debt balance. -/
def c2attrs : Attrs := fun k => if k = "hdb_outstand_sum" then .str "abc" else .none

/-- An attribute map with a numeric income of 50000. -/
def c3attrs : Attrs := fun k => if k = "incomeValue" then .num 50000 else .none

/-- The post-processing output on `c3attrs` for the single medium-income
credit card: limit capped to 200000 and the note appended. -/
def c3recs : List Recommendation :=
  [mkRec 1 { standardCard with reason := standardCard.reason ++ limitNote } (some 200000)]

/-- An attribute map with a numeric income of 10000. -/
def c3cexAttrs : Attrs := fun k => if k = "incomeValue" then .num 10000 else .none

/-- An attribute map whose income value is a truthy string. -/
def c5attrs : Attrs := fun k => if k = "incomeValue" then .str "abc" else .none

/-- The C6 scenario attributes: income 85000, age 35, category "500k_to_1M". -/
def c6attrs : Attrs := fun k =>
  if k = "incomeValue" then .num 85000 else if k = "age" then .num 35
  else if k = "incomeValueCategory" then .str "500k_to_1M" else .none

/-- The C6 scenario attributes without the category. -/
def c6attrsNoCat : Attrs := fun k =>
  if k = "incomeValue" then .num 85000 else if k = "age" then .num 35 else .none

/-- An attribute map whose only entry is an overdue sum of 60000. -/
def c7a1 : Attrs := fun k => if k = "ovrd_sum" then .num 60000 else .none

/-- An attribute map whose only entry is an overdue sum of 30000. -/
def c7a2 : Attrs := fun k => if k = "ovrd_sum" then .num 30000 else .none

/- ## Claim theorems -/

/-- C1, counterexample: a risk score of exactly 0.7 is NOT handled by the
medium-risk branch — for segment `high_income` the selection returns the
medium-income catalog ids [3, 4], not the segment's base catalog
[0, 1, 2], so the output is not the base catalog of the segment. -/
theorem c1_cex :
    (selectConfigs (7/10) "high_income" 100000 initStore 6).1 = [3, 4] ∧
    baseIds "high_income" = [0, 1, 2] ∧ ([3, 4] : List ℕ) ≠ [0, 1, 2] := by
  refine ⟨?_, by decide, by decide⟩
  rw [selectConfigs, if_neg (by norm_num), if_neg (by norm_num)]
  rfl

/-- C1, amended: for every segment, predicted income, heap and counter, a
risk score of exactly 0.4 falls in the medium-risk branch (the selection
is exactly the base catalog of the segment, with no allocation), while a
risk score of exactly 0.7 falls in the high-risk downgrade branch
(medium catalog for high_income, low catalog for medium_income, a fresh
synthetic basic card otherwise) — the medium tier is the half-open
interval [0.4, 0.7). -/
theorem c1_thm (segment : String) (p : ℚ) (st : Store) (cnt : ℕ) :
    selectConfigs (4/10) segment p st cnt = (baseIds segment, st, cnt) ∧
    selectConfigs (7/10) segment p st cnt =
      (if segment = "high_income" then ([3, 4], st, cnt)
       else if segment = "medium_income" then ([5], st, cnt)
       else ([cnt], writeStore st cnt highRiskBasicCard, cnt + 1)) := by
  constructor
  · rw [selectConfigs, if_neg (by norm_num), if_pos (by norm_num)]
  · rw [selectConfigs, if_neg (by norm_num), if_neg (by norm_num)]

/-- C2, code bug: `calculate_risk_score` is not total — on an attribute
map whose `hdb_outstand_sum` is a truthy string the unguarded Python
addition `"abc" + 0` in the debt sum raises `TypeError`, contradicting
the documented design that the scorer never raises. -/
theorem c2_bug : calculate_risk_score c2attrs = .error "TypeError" := by
  norm_num +decide [calculate_risk_score, totalDebt, pyAdd, pyOr, pyTruthy, isNum, toQ, c2attrs]

/-- C3, counterexample: the cap base is `incomeValue or predicted_income`,
not `max(incomeValue, predicted_income)`.  With incomeValue 10000 and
predicted income 1000000 the medium-income credit card (catalog limit
500000) is emitted with limit 40000 = incomeValue × 4, whereas the
claim's formula `min(500000, max(10000, 1000000) × 4)` gives 500000. -/
theorem c3_cex :
    (build_recommendations c3cexAttrs 1000000 (5/10) "medium_income").2.2 =
      .ok [mkRec 1 { standardCard with reason := standardCard.reason ++ limitNote } (some 40000),
           mkRec 2 accumDeposit Option.none] ∧
    (40000 : ℚ) ≠ min 500000 (max 10000 1000000 * 4) := by
  constructor
  · norm_num +decide [build_recommendations, postProcess, postProcessAux, processOne,
      selectConfigs, baseIds, maxReasonableLimit, capBase, pyMul4, pyGtQ, mkRec, limitNote,
      initStore, standardCard, accumDeposit, writeStore, Except.map, strContains, occursIn,
      leadMatch, pyLower, charLower, pyOr, pyTruthy, isNum, toQ, c3cexAttrs]
  · norm_num

/-- C3, amended: in post-processing, with cap base
B = incomeValue-if-truthy-else-predicted_income and a numeric, nonzero
cap value q4 = B × 4, every selected credit or credit_card product with a
nonzero catalog limit l0 is emitted with credit_limit exactly
min(l0, q4) (hence ≤ q4), and its reason text gets the limit-adjustment
note appended exactly when the cap reduced the limit and the reason does
not already mention "лимит". -/
theorem c3_thm (attrs : Attrs) (p : ℚ) (ids : List ℕ) (st : Store) (cnt : ℕ)
    (recs : List Recommendation) (q4 : ℚ)
    (hin : ∀ i ∈ ids, i < cnt)
    (h : (postProcess attrs p ids st cnt).2.2 = .ok recs)
    (hmrl : maxReasonableLimit attrs p = some (.num q4)) (hq4 : q4 ≠ 0)
    (k : ℕ) (hk : k < ids.length) (hk2 : k < recs.length) (l0 : ℚ)
    (hcredit : (st (ids.get ⟨k, hk⟩)).product_type = "credit_card"
      ∨ (st (ids.get ⟨k, hk⟩)).product_type = "credit")
    (hlim : (st (ids.get ⟨k, hk⟩)).limit = some l0) (hl0 : l0 ≠ 0) :
    (recs.get ⟨k, hk2⟩).limit = some (min l0 q4) ∧
    (recs.get ⟨k, hk2⟩).reason =
      (if q4 < l0 ∧ strContains (pyLower (st (ids.get ⟨k, hk⟩)).reason) "лимит" = false
       then (st (ids.get ⟨k, hk⟩)).reason ++ limitNote
       else (st (ids.get ⟨k, hk⟩)).reason) :=
  postProcessAux_cap (maxReasonableLimit attrs p) q4 hmrl hq4 ids 1 st cnt recs h hin
    k hk hk2 l0 hcredit hlim hl0

/-- C3, witness: on income 50000 (cap value 200000) the medium-income
credit card with catalog limit 500000 is capped to min(500000, 200000)
and the note is appended. -/
theorem c3_witness :
    (postProcess c3attrs 50000 [3] initStore 6).2.2 = .ok c3recs ∧
    maxReasonableLimit c3attrs 50000 = some (.num 200000) ∧
    (c3recs.get ⟨0, by norm_num [c3recs]⟩).limit = some (min 500000 200000) ∧
    (c3recs.get ⟨0, by norm_num [c3recs]⟩).reason =
      (if (200000 : ℚ) < 500000 ∧ strContains (pyLower (initStore ([3].get ⟨0, by norm_num⟩)).reason) "лимит" = false
       then (initStore ([3].get ⟨0, by norm_num⟩)).reason ++ limitNote
       else (initStore ([3].get ⟨0, by norm_num⟩)).reason) := by
  have h : (postProcess c3attrs 50000 [3] initStore 6).2.2 = .ok c3recs := by
    norm_num +decide [postProcess, postProcessAux, processOne, maxReasonableLimit, capBase,
      pyMul4, pyOr, pyTruthy, pyGtQ, initStore, standardCard, c3attrs, strContains, occursIn,
      leadMatch, pyLower, charLower, toQ, mkRec, limitNote, Except.map, c3recs, isNum, writeStore]
  have hmrl : maxReasonableLimit c3attrs 50000 = some (.num 200000) := by
    norm_num +decide [maxReasonableLimit, capBase, pyMul4, pyOr, pyTruthy, isNum, toQ, c3attrs]
  have hmain := c3_thm c3attrs 50000 [3] initStore 6 c3recs 200000
    (by intro i hi; simp at hi; omega) h hmrl (by norm_num)
    0 (by norm_num) (by norm_num [c3recs]) 500000
    (Or.inl (by norm_num +decide [initStore, standardCard]))
    (by norm_num +decide [initStore, standardCard]) (by norm_num)
  exact ⟨h, hmrl, hmain.1, hmain.2⟩

/-- C4, counterexample: on the empty attribute map with absent predicted
income the risk score is exactly 0.365 (all ten factors at their
defaults), which is not in the ≈0.46 region (read generously as
[0.43, 0.49]). -/
theorem c4_cex :
    calculate_risk_score attrsEmpty = .ok (365/1000) ∧
    ¬((43 : ℚ)/100 ≤ 365/1000 ∧ (365 : ℚ)/1000 ≤ 49/100) := by
  constructor
  · norm_num +decide [calculate_risk_score, totalDebt, monthlyPayment, overdueSum, riskValue,
      pyOr, pyTruthy, pyAdd, pyDiv12, isNum, toQ, incomeRisk, dtiRisk, paymentRatioRisk, ageRisk,
      overdueRiskPy, loansRisk, requestRisk, rejectionRisk, dependentsRisk, stabilityRisk,
      pyRound3, roundHalfEven, pyInt, attrsEmpty]
  · norm_num

/-- C4, amended: on the empty attribute map with absent predicted income
`calculate_risk_score` returns exactly 0.365 — every factor at its
documented default (0.5, 0.3, 0.3, 0.5, 0.3, 0.5, 0.3, 0.3, 0.4, 0.5
weighted by 0.15, 0.20, 0.15, 0.05, 0.20, 0.08, 0.05, 0.05, 0.05, 0.02)
— and `determine_segment` returns low_income. -/
theorem c4_thm :
    calculate_risk_score attrsEmpty = .ok (365/1000) ∧
    determine_segment attrsEmpty .none = "low_income" := by
  constructor
  · norm_num +decide [calculate_risk_score, totalDebt, monthlyPayment, overdueSum, riskValue,
      pyOr, pyTruthy, pyAdd, pyDiv12, isNum, toQ, incomeRisk, dtiRisk, paymentRatioRisk, ageRisk,
      overdueRiskPy, loansRisk, requestRisk, rejectionRisk, dependentsRisk, stabilityRisk,
      pyRound3, roundHalfEven, pyInt, attrsEmpty]
  · norm_num +decide [determine_segment, segFallback, pyGet, pyOr, pyTruthy, isNum, toQ, attrsEmpty]

/-- C5, code bug: the engine is not total — when `incomeValue` is a
truthy string, `income_value * 4` is a string and the comparison
`credit_limit > max_reasonable_credit_limit` raises `TypeError` before
any recommendation is emitted, contradicting the documented guarantee
that the engine never raises and always emits at least one offer. -/
theorem c5_bug :
    (build_recommendations c5attrs 85000 (5/10) "medium_income").2.2 = .error "TypeError" := by
  norm_num +decide [build_recommendations, postProcess, postProcessAux, processOne, selectConfigs,
    baseIds, maxReasonableLimit, capBase, pyMul4, pyOr, pyTruthy, pyGtQ, initStore,
    standardCard, accumDeposit, c5attrs, strContains, occursIn, leadMatch, pyLower, charLower,
    isNum, toQ]

/-- C6: with attributes {incomeValue: 85000, age: 35} and category
"500k_to_1M" at predicted income 85000 the segment is high_income (the
lexicon match on "1m" fires first), while the same attributes without
the category give medium_income through the numeric thresholds. -/
theorem c6_thm :
    determine_segment c6attrs (.num 85000) = "high_income" ∧
    determine_segment c6attrsNoCat (.num 85000) = "medium_income" := by
  constructor
  · norm_num +decide [determine_segment, segFallback, pyGet, pyOr, pyTruthy, isNum, toQ, c6attrs,
      pyLower, pyStrOf, strContains, occursIn, leadMatch, charLower]
  · norm_num +decide [determine_segment, segFallback, pyGet, pyOr, pyTruthy, isNum, toQ,
      c6attrsNoCat]

/-- C7: for attribute maps agreeing outside the three overdue keys, a
larger (numeric) total overdue sum never yields a smaller overdue
sub-score — the overdue ladder is monotone. -/
theorem c7_thm (a1 a2 : Attrs) (q1 q2 : ℚ)
    (hagree : ∀ k, k ≠ "hdb_bki_total_max_overdue_sum" → k ≠ "ovrd_sum" → k ≠ "hdb_ovrd_sum"
      → a1 k = a2 k)
    (h1 : overdueSum a1 = .ok (.num q1)) (h2 : overdueSum a2 = .ok (.num q2))
    (hle : q2 ≤ q1) :
    overdueRiskPy (.num q2) ≤ overdueRiskPy (.num q1) := by
  unfold overdueRiskPy
  simp only [isNum, toQ, true_and]
  split_ifs <;> first | rfl | linarith | norm_num

/-- C7, witness: overdue sums 60000 vs 30000 on otherwise-equal maps give
sub-scores 0.8 ≥ 0.6. -/
theorem c7_witness :
    (∀ k, k ≠ "hdb_bki_total_max_overdue_sum" → k ≠ "ovrd_sum" → k ≠ "hdb_ovrd_sum"
      → c7a1 k = c7a2 k) ∧
    overdueSum c7a1 = .ok (.num 60000) ∧ overdueSum c7a2 = .ok (.num 30000) ∧
    (30000 : ℚ) ≤ 60000 ∧
    overdueRiskPy (.num 30000) ≤ overdueRiskPy (.num 60000) := by
  have hagree : ∀ k, k ≠ "hdb_bki_total_max_overdue_sum" → k ≠ "ovrd_sum"
      → k ≠ "hdb_ovrd_sum" → c7a1 k = c7a2 k := by
    intro k _ hk _; simp [c7a1, c7a2, hk]
  have h1 : overdueSum c7a1 = .ok (.num 60000) := by
    norm_num +decide [overdueSum, pyAdd, pyOr, pyTruthy, isNum, toQ, c7a1]
  have h2 : overdueSum c7a2 = .ok (.num 30000) := by
    norm_num +decide [overdueSum, pyAdd, pyOr, pyTruthy, isNum, toQ, c7a2]
  exact ⟨hagree, h1, h2, by norm_num,
    c7_thm c7a1 c7a2 60000 30000 hagree h1 h2 (by norm_num)⟩

/-- C8: no engine run mutates the six catalog entries — the final heap
agrees with the process-start heap on every catalog id, for every input
(synthetic offers and the reason-rewriting `copy()` are fresh
allocations). -/
theorem c8_thm (attrs : Attrs) (p r : ℚ) (seg : String) (i : ℕ) (h : i < 6) :
    (build_recommendations attrs p r seg).1 i = initStore i := by
  unfold build_recommendations postProcess
  obtain ⟨hc, hs⟩ := selectConfigs_frame r seg p initStore 6
  obtain ⟨hc2, hs2⟩ := postProcessAux_frame (maxReasonableLimit attrs p)
    (if (selectConfigs r seg p initStore 6).1 = [] then [5]
     else (selectConfigs r seg p initStore 6).1) 1
    (selectConfigs r seg p initStore 6).2.1 (selectConfigs r seg p initStore 6).2.2
  exact (hs2 i (lt_of_lt_of_le h hc)).trans (hs i h)

/-- C8, witness: catalog id 0 is untouched by a concrete engine run. -/
theorem c8_witness :
    (0 : ℕ) < 6 ∧ (build_recommendations attrsEmpty 50000 (5/10) "low_income").1 0 = initStore 0 :=
  ⟨by norm_num, c8_thm attrsEmpty 50000 (5/10) "low_income" 0 (by norm_num)⟩

/-- C9: whenever `calculate_risk_score` returns a value it lies in
[0.261, 0.818]: the factor ladders are bounded, the weights sum to 1,
the clamp never fires and rounding to 3 decimals stays inside. -/
theorem c9_thm (a : Attrs) (q : ℚ) (h : calculate_risk_score a = .ok q) :
    261/1000 ≤ q ∧ q ≤ 818/1000 := by
  unfold calculate_risk_score at h
  cases htd : totalDebt a with
  | error e => rw [htd] at h; exact absurd h (by simp)
  | ok td =>
    rw [htd] at h
    cases hmp : monthlyPayment a with
    | error e => rw [hmp] at h; exact absurd h (by simp)
    | ok mp =>
      rw [hmp] at h
      cases hos : overdueSum a with
      | error e => rw [hos] at h; exact absurd h (by simp)
      | ok os =>
        rw [hos] at h
        simp only [Except.ok.injEq] at h
        subst h
        exact riskValue_bounds a td mp os

/-- C9, witness: the empty map's score 0.365 lies in [0.261, 0.818]. -/
theorem c9_witness :
    calculate_risk_score attrsEmpty = .ok (365/1000) ∧
    (261/1000 ≤ (365 : ℚ)/1000 ∧ (365 : ℚ)/1000 ≤ 818/1000) := by
  have h : calculate_risk_score attrsEmpty = .ok (365/1000) := by
    norm_num +decide [calculate_risk_score, totalDebt, monthlyPayment, overdueSum, riskValue,
      pyOr, pyTruthy, pyAdd, pyDiv12, isNum, toQ, incomeRisk, dtiRisk, paymentRatioRisk, ageRisk,
      overdueRiskPy, loansRisk, requestRisk, rejectionRisk, dependentsRisk, stabilityRisk,
      pyRound3, roundHalfEven, pyInt, attrsEmpty]
  exact ⟨h, c9_thm attrsEmpty (365/1000) h⟩

/-- C10: whenever `determine_segment` returns low_income, the category
matched no lexicon entry — every lexicon match returns high_income or
medium_income, so low_income is reachable only through the numeric
fallback. -/
theorem c10_thm (a : Attrs) (p : PyVal) (h : determine_segment a p = "low_income") :
    categoryLexMatch (pyLower (pyStrOf (pyGet a "incomeValueCategory" (.str "")))) = false := by
  unfold determine_segment at h
  by_cases ht : pyTruthy (pyGet a "incomeValueCategory" (.str "")) = true
  · rw [if_pos ht] at h
    by_cases hA : (strContains (pyLower (pyStrOf (pyGet a "incomeValueCategory" (.str "")))) "above_1m"
        || strContains (pyLower (pyStrOf (pyGet a "incomeValueCategory" (.str "")))) "1m"
        || strContains (pyLower (pyStrOf (pyGet a "incomeValueCategory" (.str "")))) "above") = true
    · rw [if_pos hA] at h; exact absurd h (by decide)
    rw [if_neg hA] at h
    by_cases hB : (strContains (pyLower (pyStrOf (pyGet a "incomeValueCategory" (.str "")))) "500k"
        || strContains (pyLower (pyStrOf (pyGet a "incomeValueCategory" (.str "")))) "500_1m"
        || strContains (pyLower (pyStrOf (pyGet a "incomeValueCategory" (.str "")))) "500k_to_1m") = true
    · rw [if_pos hB] at h; exact absurd h (by decide)
    rw [if_neg hB] at h
    by_cases hC : (strContains (pyLower (pyStrOf (pyGet a "incomeValueCategory" (.str "")))) "200_500"
        || strContains (pyLower (pyStrOf (pyGet a "incomeValueCategory" (.str "")))) "200k_to_500k") = true
    · rw [if_pos hC] at h; exact absurd h (by decide)
    rw [if_neg hC] at h
    by_cases hD : (strContains (pyLower (pyStrOf (pyGet a "incomeValueCategory" (.str "")))) "100_200"
        || strContains (pyLower (pyStrOf (pyGet a "incomeValueCategory" (.str "")))) "100k_to_200k") = true
    · rw [if_pos hD] at h; exact absurd h (by decide)
    rw [if_neg hD] at h
    by_cases hE : (strContains (pyLower (pyStrOf (pyGet a "incomeValueCategory" (.str "")))) "50_100"
        || strContains (pyLower (pyStrOf (pyGet a "incomeValueCategory" (.str "")))) "50k_to_100k") = true
    · rw [if_pos hE] at h; exact absurd h (by decide)
    simp only [Bool.or_eq_true, not_or, Bool.not_eq_true] at hA hB hC hD hE
    simp [categoryLexMatch, hA.1.1, hA.1.2, hA.2, hB.1.1, hB.1.2, hB.2, hC.1, hC.2,
      hD.1, hD.2, hE.1, hE.2]
  · cases hv : a "incomeValueCategory" with
    | none => simp only [pyGet, hv]; decide
    | num q =>
      rw [pyGet] at ht ⊢
      rw [hv] at ht ⊢
      have hq : q = 0 := by
        by_contra hq
        exact ht (by simp [pyTruthy, hq])
      subst hq
      decide
    | str s =>
      rw [pyGet] at ht ⊢
      rw [hv] at ht ⊢
      have hs : s = "" := by
        by_contra hs
        exact ht (by simp [pyTruthy, hs])
      subst hs
      decide
    | bool b =>
      rw [pyGet] at ht ⊢
      rw [hv] at ht ⊢
      cases b with
      | false => decide
      | true => exact absurd (by simp [pyTruthy]) ht

/-- C10, witness: the empty map yields low_income and indeed no lexicon
match. -/
theorem c10_witness :
    determine_segment attrsEmpty .none = "low_income" ∧
    categoryLexMatch (pyLower (pyStrOf (pyGet attrsEmpty "incomeValueCategory" (.str "")))) = false := by
  have h : determine_segment attrsEmpty .none = "low_income" := by
    norm_num +decide [determine_segment, segFallback, pyGet, pyOr, pyTruthy, isNum, toQ, attrsEmpty]
  exact ⟨h, c10_thm attrsEmpty .none h⟩

end AlfaRec
